import Mathlib

/-!
Shallow embedding of `src/notion_utils.py` (repository engmung/ECOAI).

The module is an HTTP client layer; we embed each operation as a pure
function from an *environment* (mapping each retry-loop attempt index to
the outcome of the HTTP request made on that attempt) to the pair of

* the list of observable events the operation performs, in order
  (every HTTP request issued and every `asyncio.sleep`), and
* its result, an `Except PyErr _` value: `.ok` is a normal Python
  `return`, `.error` is an exception propagating out of the function.

Python data reachable by the code (JSON bodies, property dicts) is
embedded as `PyVal`, with the Python operations the source uses
(`dict.get`, `in`, subscription, `len`, truthiness, iteration, `int()`)
given their Python semantics, including the exceptions they raise.
-/

set_option maxHeartbeats 1000000
set_option maxRecDepth 8192

/-- Python values as handled by `notion_utils.py`: JSON-shaped data.
Dicts are association lists, first binding wins on lookup. -/
inductive PyVal where
  | vnone
  | vbool (b : Bool)
  | vint (n : Int)
  | vstr (s : String)
  | vlist (elems : List PyVal)
  | vdict (fields : List (String × PyVal))

/-- Python exceptions that the embedded code can raise past its handlers. -/
inductive PyErr where
  | attributeError
  | typeError
  | keyError
  | valueError (s : String)
deriving DecidableEq

/-- First binding for a key in an association-list dict. -/
def lookupField : List (String × PyVal) → String → Option PyVal
  | [], _ => none
  | (k, v) :: rest, key => if k = key then some v else lookupField rest key

/-- Python `obj.get(key, default)`: only dicts have `.get`; anything else
raises `AttributeError`. -/
def PyVal.getD : PyVal → String → PyVal → Except PyErr PyVal
  | .vdict f, key, dflt => .ok ((lookupField f key).getD dflt)
  | _, _, _ => .error .attributeError

/-- Python `obj.get(key)` (one-argument form, default `None`). -/
def PyVal.get1 : PyVal → String → Except PyErr PyVal
  | .vdict f, key => .ok ((lookupField f key).getD .vnone)
  | _, _ => .error .attributeError

/-- Python string equality test `v == s` where `s` is a `str`: values of
any other runtime type compare unequal to a string (no exception). -/
def pyEqStr : PyVal → String → Bool
  | .vstr t, s => t = s
  | _, _ => false

/-- Prefix test on character lists (helper for the Python `in` operator
on strings). -/
def startsWithChars : List Char → List Char → Bool
  | [], _ => true
  | _ :: _, [] => false
  | p :: ps, c :: cs => p = c && startsWithChars ps cs

/-- Substring containment on character lists. -/
def charsContain (needle : List Char) : List Char → Bool
  | [] => needle.isEmpty
  | c :: rest => startsWithChars needle (c :: rest) || charsContain needle rest

/-- Python `key in obj` for a string `key`: key membership on dicts,
substring containment on strings, element membership on lists (element
compared to the string with `==`), `TypeError` on non-iterables. -/
def pyContains (key : String) : PyVal → Except PyErr Bool
  | .vdict f => .ok (lookupField f key).isSome
  | .vstr s => .ok (charsContain key.data s.data)
  | .vlist l => .ok (l.any fun v => pyEqStr v key)
  | _ => .error .typeError

/-- Python subscription `obj[key]` for a string `key`: dict lookup
(`KeyError` when absent), `TypeError` on every other type (strings and
lists require integer indices). -/
def pyIndex : PyVal → String → Except PyErr PyVal
  | .vdict f, key =>
    match lookupField f key with
    | some v => .ok v
    | none => .error .keyError
  | _, _ => .error .typeError

/-- Python `len(obj)`: sized types only, `TypeError` otherwise. -/
def pyLen : PyVal → Except PyErr Nat
  | .vstr s => .ok s.length
  | .vlist l => .ok l.length
  | .vdict f => .ok f.length
  | _ => .error .typeError

/-- Python truthiness (`if not page_response:`). -/
def pyTruthy : PyVal → Bool
  | .vnone => false
  | .vbool b => b
  | .vint n => n != 0
  | .vstr s => !s.data.isEmpty
  | .vlist l => !l.isEmpty
  | .vdict f => !f.isEmpty

/-- Python iteration `for x in obj`: lists yield elements, strings yield
one-character strings, dicts yield their keys, `TypeError` otherwise. -/
def pyIter : PyVal → Except PyErr (List PyVal)
  | .vlist l => .ok l
  | .vstr s => .ok (s.data.map fun c => .vstr (String.mk [c]))
  | .vdict f => .ok (f.map fun kv => .vstr kv.1)
  | _ => .error .typeError

/-- Test for Python dicts. -/
def PyVal.isDict : PyVal → Bool
  | .vdict _ => true
  | _ => false

/-- Whitespace stripped by Python `int(str)`. -/
def isPySpace (c : Char) : Bool := c = ' ' || c = '\t' || c = '\n' || c = '\r'

/-- Decimal digit value of a character, if any. -/
def digitVal (c : Char) : Option Nat :=
  if 48 ≤ c.toNat ∧ c.toNat ≤ 57 then some (c.toNat - 48) else none

/-- Accumulating decimal parser; `none` accumulator means no digit seen yet. -/
def parseDigits : List Char → Option Nat → Option Nat
  | [], acc => acc
  | c :: rest, acc =>
    match digitVal c with
    | some d => parseDigits rest (some (acc.getD 0 * 10 + d))
    | none => none

/-- Strip leading and trailing whitespace. -/
def pyStrip (cs : List Char) : List Char :=
  ((cs.dropWhile isPySpace).reverse.dropWhile isPySpace).reverse

/-- Python `int(s)` on a string: optional surrounding whitespace, optional
sign, then a non-empty digit run; `none` when `int` would raise `ValueError`. -/
def pyInt? (s : String) : Option Int :=
  match pyStrip s.data with
  | '-' :: rest => (parseDigits rest none).map (fun n => -(n : Int))
  | '+' :: rest => (parseDigits rest none).map (fun n => (n : Int))
  | cs => (parseDigits cs none).map (fun n => (n : Int))

/-- One HTTP attempt's outcome as seen through `httpx`:
`success body` is a response passing `raise_for_status` whose JSON body
parsed to `body` (a success response with an unparseable body is folded
into `otherError`, which the source handles the same way through its
generic `except Exception` arms); `httpError status retryAfter bodyText`
is a `raise_for_status` failure carrying the status code, the optional
`Retry-After` header and the response text; `timeout` is
`httpx.TimeoutException`; `otherError` is any other exception raised by
the request. -/
inductive HttpOutcome where
  | success (body : PyVal)
  | timeout
  | httpError (status : Nat) (retryAfter : Option String) (bodyText : String)
  | otherError

/-- Did the attempt succeed? -/
def HttpOutcome.isSuccess : HttpOutcome → Bool
  | .success _ => true
  | _ => false

/-- Observable side effects of the module: `asyncio.sleep` (seconds) and
the four kinds of HTTP request it issues. -/
inductive Event where
  | sleep (seconds : ℚ)
  | queryCall (databaseId : String)
  | createCall (databaseId : String) (properties : PyVal) (children : List PyVal)
  | appendCall (children : List PyVal)
  | updateCall (pageId : PyVal) (properties : PyVal)

/-- `int(e.response.headers.get("Retry-After", 5))` (lines 65, 230, 289):
an absent header defaults to the integer `5`; a present header is parsed
by `int`, which raises `ValueError` on a non-integer string — and it does
so *inside* the `except httpx.HTTPStatusError` handler, where the
following `except Exception` arm of the same `try` cannot catch it. -/
def parseRetryAfter : Option String → Except PyErr Int
  | none => .ok 5
  | some s =>
    match pyInt? s with
    | some n => .ok n
    | none => .error (.valueError s)

/-- Retry loop of `query_notion_database` (lines 36-78). `attempt` is the
Python loop index; `fuel` is the number of loop iterations still available
(`max_retries - attempt` at every call site, so the `fuel = 0` base case
is the loop running out, i.e. the final `return []` of line 78); all
branch conditions are the source's own, in terms of `attempt` and
`max_retries`. The sub-matches of the success arm are the expressions of
lines 48-49: `response.json().get("results", [])` (raising
`AttributeError` on a non-dict body) and the `len(results)` of the
success log line; an exception from either is caught by the
`except Exception` arm of line 71. -/
def queryAttempts (databaseId : String) (env : Nat → HttpOutcome)
    (max_retries : Nat) : Nat → Nat → List Event × Except PyErr PyVal
  | _, 0 => ([], .ok (.vlist []))
  | attempt, fuel + 1 =>
    match env attempt with
    | .success body =>
      match body.getD "results" (.vlist []) with
      | .ok results =>
        match pyLen results with
        | .ok _ => ([.queryCall databaseId], .ok results)
        | .error _ =>
          if attempt < max_retries - 1 then
            let r := queryAttempts databaseId env max_retries (attempt + 1) fuel
            (.queryCall databaseId :: .sleep ((2 : ℚ) ^ attempt) :: r.1, r.2)
          else ([.queryCall databaseId], .ok (.vlist []))
      | .error _ =>
        if attempt < max_retries - 1 then
          let r := queryAttempts databaseId env max_retries (attempt + 1) fuel
          (.queryCall databaseId :: .sleep ((2 : ℚ) ^ attempt) :: r.1, r.2)
        else ([.queryCall databaseId], .ok (.vlist []))
    | .timeout =>
      if attempt < max_retries - 1 then
        let r := queryAttempts databaseId env max_retries (attempt + 1) fuel
        (.queryCall databaseId :: .sleep ((2 : ℚ) ^ attempt) :: r.1, r.2)
      else ([.queryCall databaseId], .ok (.vlist []))
    | .httpError status retryAfter _ =>
      if status = 429 ∧ attempt < max_retries - 1 then
        match parseRetryAfter retryAfter with
        | .error e => ([.queryCall databaseId], .error e)
        | .ok n =>
          let r := queryAttempts databaseId env max_retries (attempt + 1) fuel
          (.queryCall databaseId :: .sleep (n : ℚ) :: r.1, r.2)
      else ([.queryCall databaseId], .ok (.vlist []))
    | .otherError =>
      if attempt < max_retries - 1 then
        let r := queryAttempts databaseId env max_retries (attempt + 1) fuel
        (.queryCall databaseId :: .sleep ((2 : ℚ) ^ attempt) :: r.1, r.2)
      else ([.queryCall databaseId], .ok (.vlist []))

/-- `query_notion_database(database_id, request_body=None, max_retries=3,
timeout=30.0)` (lines 21-78); the request body and timeout value do not
affect control flow and are not modelled. -/
def query_notion_database (databaseId : String) (env : Nat → HttpOutcome)
    (max_retries : Nat) : List Event × Except PyErr PyVal :=
  queryAttempts databaseId env max_retries 0 max_retries

/-- Single-request branch of `create_script_report_page` (lines 186-244),
used when the converted content has at most 90 blocks. Same retry
structure as the query, but the result is the page descriptor
(`.ok (some body)`) or the failure signal `None` (`.ok none`). -/
def createSingleAttempts (databaseId : String) (properties : PyVal)
    (children : List PyVal) (env : Nat → HttpOutcome) (max_retries : Nat) :
    Nat → Nat → List Event × Except PyErr (Option PyVal)
  | _, 0 => ([], .ok none)
  | attempt, fuel + 1 =>
    match env attempt with
    | .success body => ([.createCall databaseId properties children], .ok (some body))
    | .timeout =>
      if attempt < max_retries - 1 then
        let r := createSingleAttempts databaseId properties children env max_retries (attempt + 1) fuel
        (.createCall databaseId properties children :: .sleep ((2 : ℚ) ^ attempt) :: r.1, r.2)
      else ([.createCall databaseId properties children], .ok none)
    | .httpError status retryAfter _ =>
      if status = 429 ∧ attempt < max_retries - 1 then
        match parseRetryAfter retryAfter with
        | .error e => ([.createCall databaseId properties children], .error e)
        | .ok n =>
          let r := createSingleAttempts databaseId properties children env max_retries (attempt + 1) fuel
          (.createCall databaseId properties children :: .sleep (n : ℚ) :: r.1, r.2)
      else ([.createCall databaseId properties children], .ok none)
    | .otherError =>
      if attempt < max_retries - 1 then
        let r := createSingleAttempts databaseId properties children env max_retries (attempt + 1) fuel
        (.createCall databaseId properties children :: .sleep ((2 : ℚ) ^ attempt) :: r.1, r.2)
      else ([.createCall databaseId properties children], .ok none)

/-- First-request loop of the multi-request branch of
`create_script_report_page` (lines 115-137). Its single
`except Exception` arm handles *every* failure — timeouts, HTTP status
errors of any code (429 included, with no `Retry-After` handling), and
anything else — with exponential backoff, returning `None` after the last
attempt. The result is the parsed page response, `none` when the loop
never broke with a success. -/
def createFirstAttempts (databaseId : String) (properties : PyVal)
    (children : List PyVal) (env : Nat → HttpOutcome) (max_retries : Nat) :
    Nat → Nat → List Event × Option PyVal
  | _, 0 => ([], none)
  | attempt, fuel + 1 =>
    match env attempt with
    | .success body => ([.createCall databaseId properties children], some body)
    | _ =>
      if attempt < max_retries - 1 then
        let r := createFirstAttempts databaseId properties children env max_retries (attempt + 1) fuel
        (.createCall databaseId properties children :: .sleep ((2 : ℚ) ^ attempt) :: r.1, r.2)
      else ([.createCall databaseId properties children], none)

/-- Append-request retry loop (lines 154-178) for one group of blocks.
On success it sleeps 0.5 s (line 169) and breaks; every failure is caught
by the single `except Exception` arm: exponential backoff while attempts
remain, otherwise only a warning is logged (line 178) and the loop ends.
Only the event trace is observable — the `success` flag merely selects a
second warning (line 181) and does not alter control flow. -/
def appendAttempts (env : Nat → HttpOutcome) (blocks : List PyVal)
    (max_retries : Nat) : Nat → Nat → List Event
  | _, 0 => []
  | attempt, fuel + 1 =>
    match env attempt with
    | .success _ => [.appendCall blocks, .sleep (1 / 2 : ℚ)]
    | _ =>
      if attempt < max_retries - 1 then
        .appendCall blocks :: .sleep ((2 : ℚ) ^ attempt)
          :: appendAttempts env blocks max_retries (attempt + 1) fuel
      else [.appendCall blocks]

/-- Number of iterations of `for i in range(0, n, 90)` (line 146). -/
def numGroups (n : Nat) : Nat := (n + 89) / 90

/-- Append loop over block groups (lines 146-181):
`remaining_blocks[i:i+90]` for `i = 0, 90, ...`, each group getting its
own retry loop; a group's failure never stops the loop. `envA g` is the
environment of group `g`'s retry loop. -/
def appendGroups (envA : Nat → Nat → HttpOutcome) (max_retries : Nat)
    (remaining : List PyVal) : List Event :=
  ((List.range (numGroups remaining.length)).map
    (fun g => appendAttempts (envA g) ((remaining.drop (90 * g)).take 90)
      max_retries 0 max_retries)).flatten

/-- `create_script_report_page(database_id, properties, content,
max_retries=3, timeout=120.0)` (lines 81-244). `children` stands for
`create_markdown_blocks(content)`, the out-of-scope pure conversion
collaborator. With more than `MAX_BLOCKS_PER_REQUEST = 90` blocks
(line 102) the page is created from the first 90 blocks and the rest is
appended in groups of 90; `page_response["id"]` (line 143) raises on a
descriptor without an `"id"` key, and a falsy (e.g. empty) parsed
response triggers the `if not page_response: return None` of line 139. -/
def create_script_report_page (databaseId : String) (properties : PyVal)
    (children : List PyVal) (env : Nat → HttpOutcome)
    (envA : Nat → Nat → HttpOutcome) (max_retries : Nat) :
    List Event × Except PyErr (Option PyVal) :=
  if children.length > 90 then
    let first := createFirstAttempts databaseId properties (children.take 90) env max_retries 0 max_retries
    match first.2 with
    | none => (first.1, .ok none)
    | some page_response =>
      if !pyTruthy page_response then (first.1, .ok none)
      else
        match pyIndex page_response "id" with
        | .error e => (first.1, .error e)
        | .ok _page_id =>
          (first.1 ++ appendGroups envA max_retries (children.drop 90), .ok (some page_response))
  else
    createSingleAttempts databaseId properties children env max_retries 0 max_retries

/-- Retry loop of `update_notion_page` (lines 263-301): identical policy
to the query loop, returning `True` on success and `False` on failure. -/
def updateAttempts (pageId : PyVal) (properties : PyVal)
    (env : Nat → HttpOutcome) (max_retries : Nat) :
    Nat → Nat → List Event × Except PyErr Bool
  | _, 0 => ([], .ok false)
  | attempt, fuel + 1 =>
    match env attempt with
    | .success _ => ([.updateCall pageId properties], .ok true)
    | .timeout =>
      if attempt < max_retries - 1 then
        let r := updateAttempts pageId properties env max_retries (attempt + 1) fuel
        (.updateCall pageId properties :: .sleep ((2 : ℚ) ^ attempt) :: r.1, r.2)
      else ([.updateCall pageId properties], .ok false)
    | .httpError status retryAfter _ =>
      if status = 429 ∧ attempt < max_retries - 1 then
        match parseRetryAfter retryAfter with
        | .error e => ([.updateCall pageId properties], .error e)
        | .ok n =>
          let r := updateAttempts pageId properties env max_retries (attempt + 1) fuel
          (.updateCall pageId properties :: .sleep (n : ℚ) :: r.1, r.2)
      else ([.updateCall pageId properties], .ok false)
    | .otherError =>
      if attempt < max_retries - 1 then
        let r := updateAttempts pageId properties env max_retries (attempt + 1) fuel
        (.updateCall pageId properties :: .sleep ((2 : ℚ) ^ attempt) :: r.1, r.2)
      else ([.updateCall pageId properties], .ok false)

/-- `update_notion_page(page_id, properties, max_retries=3, timeout=30.0)`
(lines 246-301). -/
def update_notion_page (pageId : PyVal) (properties : PyVal)
    (env : Nat → HttpOutcome) (max_retries : Nat) :
    List Event × Except PyErr Bool :=
  updateAttempts pageId properties env max_retries 0 max_retries

/-- Environment-configured database ids (lines 16-17), opaque strings. -/
def SCRIPT_DB_ID : String := "SCRIPT_DB_ID"

/-- Reference database id (line 16). -/
def REFERENCE_DB_ID : String := "REFERENCE_DB_ID"

/-- Per-record test of `check_script_exists` (lines 308-312):
`page.get("properties", {})`, `properties.get("URL", {})`, then
`"url" in url_property and url_property["url"] == video_url`, each with
Python semantics (so `AttributeError` and `TypeError` can escape on
non-dict values along the path). -/
def urlMatchStep (video_url : String) (page : PyVal) : Except PyErr Bool :=
  match page.getD "properties" (.vdict []) with
  | .error e => .error e
  | .ok properties =>
    match properties.getD "URL" (.vdict []) with
    | .error e => .error e
    | .ok url_property =>
      match pyContains "url" url_property with
      | .error e => .error e
      | .ok c =>
        if c then
          match pyIndex url_property "url" with
          | .error e => .error e
          | .ok v => .ok (pyEqStr v video_url)
        else .ok false

/-- Scan of `check_script_exists` over the returned pages (lines 307-314):
first match returns `True`, exhaustion returns `False`, an exception in a
step propagates. -/
def checkScan (video_url : String) : List PyVal → Except PyErr Bool
  | [] => .ok false
  | page :: rest =>
    match urlMatchStep video_url page with
    | .error e => .error e
    | .ok true => .ok true
    | .ok false => checkScan video_url rest

/-- `check_script_exists(video_url)` (lines 303-314): queries the script
database with the default `max_retries=3`, then scans the result. -/
def check_script_exists (video_url : String) (env : Nat → HttpOutcome) :
    List Event × Except PyErr Bool :=
  let q := query_notion_database SCRIPT_DB_ID env 3
  match q.2 with
  | .error e => (q.1, .error e)
  | .ok v =>
    match pyIter v with
    | .error e => (q.1, .error e)
    | .ok pages => (q.1, checkScan video_url pages)

/-- Properties payload of `reset_all_channels` (lines 325-329). -/
def activeProps : PyVal := .vdict [("활성화", .vdict [("checkbox", .vbool true)])]

/-- Record loop of `reset_all_channels` (lines 323-333): for each page,
`page.get("id")` then `update_notion_page(page_id, properties)` with the
default `max_retries=3`, counting successes; `updEnv k` is the
environment of the update issued for the `k`-th record. -/
def resetGo (updEnv : Nat → Nat → HttpOutcome) :
    List PyVal → Nat → Nat → List Event × Except PyErr Nat
  | [], _, success_count => ([], .ok success_count)
  | page :: rest, k, success_count =>
    match page.get1 "id" with
    | .error e => ([], .error e)
    | .ok page_id =>
      let u := update_notion_page page_id activeProps (updEnv k) 3
      match u.2 with
      | .error e => (u.1, .error e)
      | .ok b =>
        let r := resetGo updEnv rest (k + 1) (if b then success_count + 1 else success_count)
        (u.1 ++ r.1, r.2)

/-- `reset_all_channels()` (lines 316-336): query the reference database
(default `max_retries=3`), log `len(reference_pages)` (line 319, which
can raise on an unsized value), update every record, and return
`success_count > 0`. -/
def reset_all_channels (env : Nat → HttpOutcome)
    (updEnv : Nat → Nat → HttpOutcome) : List Event × Except PyErr Bool :=
  let q := query_notion_database REFERENCE_DB_ID env 3
  match q.2 with
  | .error e => (q.1, .error e)
  | .ok v =>
    match pyLen v with
    | .error e => (q.1, .error e)
    | .ok _ =>
      match pyIter v with
      | .error e => (q.1, .error e)
      | .ok pages =>
        let r := resetGo updEnv pages 0 0
        match r.2 with
        | .error e => (q.1 ++ r.1, .error e)
        | .ok success_count => (q.1 ++ r.1, .ok (decide (0 < success_count)))

/-! ## Spec-side definitions used in theorem statements -/

/-- Event trace of a retry loop that fails on all of its `max_retries`
attempts: the call of attempt `i` followed by the exponential-backoff
sleep of `2 ^ i` seconds between attempts, with no sleep after the final
attempt. -/
def exhaustedEvents (call : Event) (max_retries : Nat) : List Event :=
  ((List.range (max_retries - 1)).map
    (fun i => [call, Event.sleep ((2 : ℚ) ^ i)])).flatten ++ [call]

/-- Modelled from the spec's words: a record matches a source URL when its
`properties.URL.url` value is exactly (case-sensitively) that URL — each
of `properties` and `URL` a mapping along the path, `url` present. -/
def specMatchesURL (sourceUrl : String) (r : PyVal) : Bool :=
  match r with
  | .vdict f =>
    match lookupField f "properties" with
    | some (.vdict pf) =>
      match lookupField pf "URL" with
      | some (.vdict uf) =>
        match lookupField uf "url" with
        | some v => pyEqStr v sourceUrl
        | none => false
      | _ => false
    | _ => false
  | _ => false

/-- Did the computation return (rather than raise)? -/
def exceptOk {α : Type} : Except PyErr α → Bool
  | .ok _ => true
  | .error _ => false

/-- Did the computation return `True`? -/
def isOkTrue : Except PyErr Bool → Bool
  | .ok true => true
  | _ => false

/-- Value of `page.get("id")` on a dict record (default `None`). -/
def getIdD (r : PyVal) : PyVal :=
  match r with
  | .vdict f => (lookupField f "id").getD .vnone
  | _ => .vnone

/-- The update operation `reset_all_channels` issues for the `k`-th
returned record `r`. -/
def updRunAt (updEnv : Nat → Nat → HttpOutcome) (k : Nat) (r : PyVal) :
    List Event × Except PyErr Bool :=
  update_notion_page (getIdD r) activeProps (updEnv k) 3

/-- Concatenated event traces of the per-record updates of
`reset_all_channels`, one update operation per record, in record order. -/
def resetExpectedEvents (updEnv : Nat → Nat → HttpOutcome) :
    List PyVal → Nat → List Event
  | [], _ => []
  | r :: rest, k => (updRunAt updEnv k r).1 ++ resetExpectedEvents updEnv rest (k + 1)

/-! ## Helper lemmas -/

lemma queryAttempts_timeout_step (databaseId : String) (env : Nat → HttpOutcome)
    (max_retries attempt fuel : Nat) (henv : env attempt = .timeout)
    (hlt : attempt < max_retries - 1) :
    queryAttempts databaseId env max_retries attempt (fuel + 1)
      = (.queryCall databaseId :: .sleep ((2 : ℚ) ^ attempt)
          :: (queryAttempts databaseId env max_retries (attempt + 1) fuel).1,
         (queryAttempts databaseId env max_retries (attempt + 1) fuel).2) := by
  simp [queryAttempts, henv, hlt]

lemma queryAttempts_timeout_last (databaseId : String) (env : Nat → HttpOutcome)
    (max_retries attempt fuel : Nat) (henv : env attempt = .timeout)
    (hlt : ¬ attempt < max_retries - 1) :
    queryAttempts databaseId env max_retries attempt (fuel + 1)
      = ([.queryCall databaseId], .ok (.vlist [])) := by
  simp [queryAttempts, henv, hlt]

lemma queryAttempts_timeout_exhaust (fuel : Nat) : ∀ (databaseId : String)
    (env : Nat → HttpOutcome) (max_retries attempt : Nat),
    (∀ i, env i = .timeout) → attempt + fuel + 1 = max_retries →
    queryAttempts databaseId env max_retries attempt (fuel + 1)
      = (((List.range' attempt fuel).map
            (fun i => [Event.queryCall databaseId, Event.sleep ((2 : ℚ) ^ i)])).flatten
          ++ [Event.queryCall databaseId], .ok (.vlist [])) := by
  induction fuel with
  | zero =>
    intro db env mr a henv ha
    rw [queryAttempts_timeout_last db env mr a 0 (henv a) (by omega)]
    simp
  | succ n ih =>
    intro db env mr a henv ha
    rw [queryAttempts_timeout_step db env mr a (n + 1) (henv a) (by omega),
      ih db env mr (a + 1) henv (by omega)]
    simp [List.range'_succ]

lemma appendAttempts_fail_step (env : Nat → HttpOutcome) (blocks : List PyVal)
    (max_retries attempt fuel : Nat) (henv : (env attempt).isSuccess = false)
    (hlt : attempt < max_retries - 1) :
    appendAttempts env blocks max_retries attempt (fuel + 1)
      = .appendCall blocks :: .sleep ((2 : ℚ) ^ attempt)
          :: appendAttempts env blocks max_retries (attempt + 1) fuel := by
  cases h : env attempt <;> simp [h, HttpOutcome.isSuccess] at henv ⊢ <;>
    simp [appendAttempts, h, hlt]

lemma appendAttempts_fail_last (env : Nat → HttpOutcome) (blocks : List PyVal)
    (max_retries attempt fuel : Nat) (henv : (env attempt).isSuccess = false)
    (hlt : ¬ attempt < max_retries - 1) :
    appendAttempts env blocks max_retries attempt (fuel + 1) = [.appendCall blocks] := by
  cases h : env attempt <;> simp [h, HttpOutcome.isSuccess] at henv ⊢ <;>
    simp [appendAttempts, h, hlt]

lemma appendAttempts_fail_exhaust (fuel : Nat) : ∀ (env : Nat → HttpOutcome)
    (blocks : List PyVal) (max_retries attempt : Nat),
    (∀ i, (env i).isSuccess = false) → attempt + fuel + 1 = max_retries →
    appendAttempts env blocks max_retries attempt (fuel + 1)
      = ((List.range' attempt fuel).map
            (fun i => [Event.appendCall blocks, Event.sleep ((2 : ℚ) ^ i)])).flatten
          ++ [Event.appendCall blocks] := by
  induction fuel with
  | zero =>
    intro env blocks mr a henv ha
    rw [appendAttempts_fail_last env blocks mr a 0 (henv a) (by omega)]
    simp
  | succ n ih =>
    intro env blocks mr a henv ha
    rw [appendAttempts_fail_step env blocks mr a (n + 1) (henv a) (by omega),
      ih env blocks mr (a + 1) henv (by omega)]
    simp [List.range'_succ]

lemma createFirstAttempts_fail (fuel : Nat) : ∀ (databaseId : String)
    (properties : PyVal) (children : List PyVal) (env : Nat → HttpOutcome)
    (max_retries attempt : Nat), (∀ i, (env i).isSuccess = false) →
    (createFirstAttempts databaseId properties children env max_retries attempt fuel).2
      = none := by
  induction fuel with
  | zero => intro db p c env mr a _; rfl
  | succ n ih =>
    intro db p c env mr a henv
    cases h : env a with
    | success body => have := henv a; rw [h] at this; simp [HttpOutcome.isSuccess] at this
    | timeout =>
      by_cases hlt : a < mr - 1 <;> simp [createFirstAttempts, h, hlt, ih db p c env mr (a + 1) henv]
    | httpError s r t =>
      by_cases hlt : a < mr - 1 <;> simp [createFirstAttempts, h, hlt, ih db p c env mr (a + 1) henv]
    | otherError =>
      by_cases hlt : a < mr - 1 <;> simp [createFirstAttempts, h, hlt, ih db p c env mr (a + 1) henv]

/-! ## Claim theorems -/

/-- Claim C1, counterexample. The claim says a non-429 HTTP error makes
every operation's attempt loop fail immediately with no further retry
attempt. Concretely refuted by the append-blocks loop: creating a page
with 91 blocks whose create call succeeds and whose append call always
receives HTTP 500 issues the append request three times, with
exponential-backoff sleeps between the attempts, instead of failing after
one occurrence. -/
theorem C1_counterexample :
    create_script_report_page "db" .vnone (List.replicate 91 .vnone)
      (fun _ => .success (.vdict [("id", .vstr "p")]))
      (fun _ _ => .httpError 500 none "boom") 3
      = ([.createCall "db" .vnone (List.replicate 90 .vnone),
          .appendCall [PyVal.vnone], .sleep 1,
          .appendCall [PyVal.vnone], .sleep 2,
          .appendCall [PyVal.vnone]],
         .ok (some (.vdict [("id", .vstr "p")]))) := rfl

/-- Claim C1, amended. A non-429 HTTP error status causes the attempt
loop to fail immediately, with no further retry attempt, in the query
loop, the update loop and the single-request create loop; but in the
multi-request create path both the first-request loop and the
append-blocks loops catch every error uniformly and retry it with
exponential backoff while attempts remain (no immediate failure, and no
`Retry-After` handling either). -/
theorem C1_claim (databaseId : String) (pageId properties : PyVal)
    (children : List PyVal) (env : Nat → HttpOutcome)
    (max_retries attempt fuel status : Nat) (retryAfter : Option String)
    (bodyText : String) (hstatus : status ≠ 429)
    (henv : env attempt = .httpError status retryAfter bodyText) :
    queryAttempts databaseId env max_retries attempt (fuel + 1)
      = ([.queryCall databaseId], .ok (.vlist []))
    ∧ updateAttempts pageId properties env max_retries attempt (fuel + 1)
      = ([.updateCall pageId properties], .ok false)
    ∧ createSingleAttempts databaseId properties children env max_retries attempt (fuel + 1)
      = ([.createCall databaseId properties children], .ok none)
    ∧ (attempt < max_retries - 1 →
        appendAttempts env children max_retries attempt (fuel + 1)
          = .appendCall children :: .sleep ((2 : ℚ) ^ attempt)
              :: appendAttempts env children max_retries (attempt + 1) fuel
        ∧ createFirstAttempts databaseId properties children env max_retries attempt (fuel + 1)
          = (.createCall databaseId properties children :: .sleep ((2 : ℚ) ^ attempt)
              :: (createFirstAttempts databaseId properties children env max_retries (attempt + 1) fuel).1,
             (createFirstAttempts databaseId properties children env max_retries (attempt + 1) fuel).2)) := by
  refine ⟨?_, ?_, ?_, fun hlt => ⟨?_, ?_⟩⟩
  · simp [queryAttempts, henv, hstatus]
  · simp [updateAttempts, henv, hstatus]
  · simp [createSingleAttempts, henv, hstatus]
  · simp [appendAttempts, henv, hlt]
  · simp [createFirstAttempts, henv, hlt]

/-- Claim C1, witness: with HTTP 500 on every attempt, the query loop
gives up after a single call while the append loop goes on to a second
attempt after a backoff sleep. -/
theorem C1_witness :
    queryAttempts "db" (fun _ => .httpError 500 none "boom") 3 0 3
      = ([.queryCall "db"], .ok (.vlist []))
    ∧ appendAttempts (fun _ => .httpError 500 none "boom") [PyVal.vnone] 3 0 3
      = .appendCall [PyVal.vnone] :: .sleep ((2 : ℚ) ^ 0)
          :: appendAttempts (fun _ => .httpError 500 none "boom") [PyVal.vnone] 3 1 2 := by
  have h := C1_claim "db" (.vstr "p") .vnone [PyVal.vnone]
    (fun _ => .httpError 500 none "boom") 3 0 2 500 none "boom" (by decide) rfl
  exact ⟨h.1, (h.2.2.2 (by decide)).1⟩

/-- Claim C2, refuting evaluation (status: code_bug). The spec's
propagation policy says no operation ever raises; but a 429 response
whose `Retry-After` header is the non-integer string `"seven"`, received
on an attempt with budget left, makes `int()` raise `ValueError` inside
the `except httpx.HTTPStatusError` handler, which the following
`except Exception` arm cannot catch, so the exception propagates to the
caller of `query_notion_database`. -/
theorem C2_claim :
    query_notion_database "db" (fun _ => .httpError 429 (some "seven") "rate") 3
      = ([.queryCall "db"], .error (.valueError "seven")) := rfl

/-- Claim C3: within the retry budget (`attempt < max_retries - 1`), a
429 response with `Retry-After: 7` makes the query and update loops wait
exactly 7 seconds before the next attempt — and exactly 5 seconds when
the header is absent — whatever the attempt index, with no
exponential-backoff sleep added. -/
theorem C3_claim (databaseId : String) (pageId properties : PyVal)
    (env : Nat → HttpOutcome) (max_retries attempt fuel : Nat)
    (bodyText : String) (hlt : attempt < max_retries - 1) :
    (env attempt = .httpError 429 (some "7") bodyText →
      queryAttempts databaseId env max_retries attempt (fuel + 1)
        = (.queryCall databaseId :: .sleep 7
            :: (queryAttempts databaseId env max_retries (attempt + 1) fuel).1,
           (queryAttempts databaseId env max_retries (attempt + 1) fuel).2)
      ∧ updateAttempts pageId properties env max_retries attempt (fuel + 1)
        = (.updateCall pageId properties :: .sleep 7
            :: (updateAttempts pageId properties env max_retries (attempt + 1) fuel).1,
           (updateAttempts pageId properties env max_retries (attempt + 1) fuel).2))
    ∧ (env attempt = .httpError 429 none bodyText →
      queryAttempts databaseId env max_retries attempt (fuel + 1)
        = (.queryCall databaseId :: .sleep 5
            :: (queryAttempts databaseId env max_retries (attempt + 1) fuel).1,
           (queryAttempts databaseId env max_retries (attempt + 1) fuel).2)
      ∧ updateAttempts pageId properties env max_retries attempt (fuel + 1)
        = (.updateCall pageId properties :: .sleep 5
            :: (updateAttempts pageId properties env max_retries (attempt + 1) fuel).1,
           (updateAttempts pageId properties env max_retries (attempt + 1) fuel).2)) := by
  have h7 : parseRetryAfter (some "7") = .ok 7 := rfl
  have h5 : parseRetryAfter none = .ok 5 := rfl
  constructor
  · intro henv
    constructor
    · simp [queryAttempts, henv, hlt, h7]
    · simp [updateAttempts, henv, hlt, h7]
  · intro henv
    constructor
    · simp [queryAttempts, henv, hlt, h5]
    · simp [updateAttempts, henv, hlt, h5]

/-- Claim C3, witness: at attempt 0 of 3, the query loop sleeps exactly
7 s on a 429 with `Retry-After: 7`, and exactly 5 s when the header is
absent. -/
theorem C3_witness :
    queryAttempts "db" (fun _ => .httpError 429 (some "7") "rate") 3 0 3
      = (.queryCall "db" :: .sleep 7
          :: (queryAttempts "db" (fun _ => .httpError 429 (some "7") "rate") 3 1 2).1,
         (queryAttempts "db" (fun _ => .httpError 429 (some "7") "rate") 3 1 2).2)
    ∧ queryAttempts "db" (fun _ => .httpError 429 none "rate") 3 0 3
      = (.queryCall "db" :: .sleep 5
          :: (queryAttempts "db" (fun _ => .httpError 429 none "rate") 3 1 2).1,
         (queryAttempts "db" (fun _ => .httpError 429 none "rate") 3 1 2).2) := by
  refine ⟨((C3_claim "db" (.vstr "p") .vnone _ 3 0 2 "rate" (by decide)).1 rfl).1,
    ((C3_claim "db" (.vstr "p") .vnone _ 3 0 2 "rate" (by decide)).2 rfl).1⟩

/-- Claim C4: for every `max_retries ≥ 1`, a query whose every attempt
times out returns the empty list, and the full event trace is the call of
each attempt interleaved with sleeps of exactly `2^0, 2^1, ...,
2^(max_retries - 2)` seconds, with no sleep after the final attempt. -/
theorem C4_claim (databaseId : String) (env : Nat → HttpOutcome)
    (max_retries : Nat) (hmr : 1 ≤ max_retries)
    (henv : ∀ i, env i = .timeout) :
    query_notion_database databaseId env max_retries
      = (exhaustedEvents (.queryCall databaseId) max_retries, .ok (.vlist [])) := by
  obtain ⟨m, rfl⟩ : ∃ m, max_retries = m + 1 := ⟨max_retries - 1, by omega⟩
  rw [query_notion_database,
    queryAttempts_timeout_exhaust m databaseId env (m + 1) 0 henv (by omega)]
  simp [exhaustedEvents, List.range_eq_range']

/-- Claim C4, witness: three attempts, all timing out, produce the trace
call, sleep 1, call, sleep 2, call, and the empty result. -/
theorem C4_witness :
    query_notion_database "db" (fun _ => .timeout) 3
      = (exhaustedEvents (.queryCall "db") 3, .ok (.vlist [])) :=
  C4_claim "db" (fun _ => .timeout) 3 (by omega) (fun _ => rfl)

/-- Claim C5: a first query attempt answered with HTTP 200 and a dict
body returns exactly the body's `"results"` array, unchanged, and the
empty list when the body has no `"results"` key. -/
theorem C5_claim (databaseId : String) (env : Nat → HttpOutcome)
    (max_retries : Nat) (fields : List (String × PyVal))
    (hmr : 1 ≤ max_retries) (henv : env 0 = .success (.vdict fields)) :
    (∀ rs, lookupField fields "results" = some (.vlist rs) →
      query_notion_database databaseId env max_retries
        = ([.queryCall databaseId], .ok (.vlist rs)))
    ∧ (lookupField fields "results" = none →
      query_notion_database databaseId env max_retries
        = ([.queryCall databaseId], .ok (.vlist []))) := by
  obtain ⟨m, rfl⟩ : ∃ m, max_retries = m + 1 := ⟨max_retries - 1, by omega⟩
  constructor
  · intro rs hrs
    simp [query_notion_database, queryAttempts, henv, PyVal.getD, hrs, pyLen]
  · intro hrs
    simp [query_notion_database, queryAttempts, henv, PyVal.getD, hrs, pyLen]

/-- Claim C5, witness: a 200 body with a one-element `results` array
returns exactly that array, and a 200 body without the key returns the
empty list. -/
theorem C5_witness :
    query_notion_database "db"
        (fun _ => .success (.vdict [("results", .vlist [.vint 1])])) 3
      = ([.queryCall "db"], .ok (.vlist [.vint 1]))
    ∧ query_notion_database "db" (fun _ => .success (.vdict [("other", .vnone)])) 3
      = ([.queryCall "db"], .ok (.vlist [])) :=
  ⟨(C5_claim "db" _ 3 [("results", .vlist [.vint 1])] (by omega) rfl).1 [.vint 1] rfl,
   (C5_claim "db" _ 3 [("other", .vnone)] (by omega) rfl).2 rfl⟩

/-- Claim C6: with at most 90 blocks (and a first attempt that succeeds)
`create_script_report_page` issues exactly one create call carrying all
blocks inline; with 91 blocks it issues one create call with the first 90
blocks, then exactly one append call with the remaining single block,
followed by the 0.5-second pause after that append's success. -/
theorem C6_claim (databaseId : String) (properties body : PyVal)
    (children : List PyVal) (env : Nat → HttpOutcome)
    (envA : Nat → Nat → HttpOutcome) (max_retries : Nat)
    (hmr : 1 ≤ max_retries) (henv : env 0 = .success body) :
    (children.length ≤ 90 →
      create_script_report_page databaseId properties children env envA max_retries
        = ([.createCall databaseId properties children], .ok (some body)))
    ∧ (∀ body2, children.length = 91 → pyTruthy body = true →
        (∃ v, pyIndex body "id" = .ok v) → envA 0 0 = .success body2 →
        create_script_report_page databaseId properties children env envA max_retries
          = ([.createCall databaseId properties (children.take 90),
              .appendCall (children.drop 90), .sleep (1 / 2 : ℚ)],
             .ok (some body))) := by
  obtain ⟨m, rfl⟩ : ∃ m, max_retries = m + 1 := ⟨max_retries - 1, by omega⟩
  constructor
  · intro hle
    rw [create_script_report_page, if_neg (by omega)]
    simp [createSingleAttempts, henv]
  · rintro body2 hlen htruthy ⟨v, hv⟩ henvA
    have hdlen : (children.drop 90).length = 1 := by simp [hlen]
    rw [create_script_report_page, if_pos (by omega)]
    simp only [createFirstAttempts, henv]
    simp only [htruthy, Bool.not_true, hv]
    have hgroups : appendGroups envA (m + 1) (children.drop 90)
        = [.appendCall (children.drop 90), .sleep (1 / 2 : ℚ)] := by
      rw [appendGroups, hdlen]
      show ((List.range 1).map _).flatten = _
      simp only [show List.range 1 = [0] from rfl, List.map_cons, List.map_nil,
        List.flatten]
      rw [Nat.mul_zero, List.drop_zero, List.take_of_length_le (by omega)]
      simp [appendAttempts, henvA]
    rw [hgroups]
    simp

/-- Claim C6, witness: the two scenarios at 90 and 91 blocks with
`max_retries = 3`. -/
theorem C6_witness :
    create_script_report_page "db" .vnone (List.replicate 90 .vnone)
      (fun _ => .success (.vdict [("id", .vstr "p")])) (fun _ _ => .success .vnone) 3
      = ([.createCall "db" .vnone (List.replicate 90 .vnone)],
         .ok (some (.vdict [("id", .vstr "p")])))
    ∧ create_script_report_page "db" .vnone (List.replicate 91 .vnone)
      (fun _ => .success (.vdict [("id", .vstr "p")])) (fun _ _ => .success .vnone) 3
      = ([.createCall "db" .vnone ((List.replicate 91 (PyVal.vnone)).take 90),
          .appendCall ((List.replicate 91 (PyVal.vnone)).drop 90), .sleep (1 / 2 : ℚ)],
         .ok (some (.vdict [("id", .vstr "p")]))) :=
  ⟨(C6_claim "db" .vnone (.vdict [("id", .vstr "p")]) (List.replicate 90 .vnone)
      _ _ 3 (by omega) rfl).1 (by simp),
   (C6_claim "db" .vnone (.vdict [("id", .vstr "p")]) (List.replicate 91 .vnone)
      _ _ 3 (by omega) rfl).2 .vnone (by simp) rfl ⟨.vstr "p", rfl⟩ rfl⟩

/-- Claim C7: in the multi-request create path, a first create request
that fails on every attempt makes the whole operation return the failure
signal `None`; whereas with 181 blocks, when the first append group
exhausts all its retries while the second group succeeds, the loop still
proceeds to the second group and the operation still returns the created
page descriptor. -/
theorem C7_claim (databaseId : String) (properties body body2 : PyVal)
    (children : List PyVal) (env : Nat → HttpOutcome)
    (envA : Nat → Nat → HttpOutcome) (max_retries : Nat) :
    (90 < children.length → (∀ i, (env i).isSuccess = false) →
      (create_script_report_page databaseId properties children env envA max_retries).2
        = .ok none)
    ∧ (children.length = 181 → 1 ≤ max_retries → env 0 = .success body →
        pyTruthy body = true → (∃ v, pyIndex body "id" = .ok v) →
        (∀ a, ((envA 0 a).isSuccess) = false) → envA 1 0 = .success body2 →
        create_script_report_page databaseId properties children env envA max_retries
          = ([.createCall databaseId properties (children.take 90)]
              ++ exhaustedEvents (.appendCall ((children.drop 90).take 90)) max_retries
              ++ [.appendCall (children.drop 180), .sleep (1 / 2 : ℚ)],
             .ok (some body))) := by
  constructor
  · intro hgt henv
    have h2 := createFirstAttempts_fail max_retries databaseId properties
      (children.take 90) env max_retries 0 henv
    simp [create_script_report_page, hgt, h2]
  · rintro hlen hmr henv htruthy ⟨v, hv⟩ henvA0 henvA1
    obtain ⟨m, rfl⟩ : ∃ m, max_retries = m + 1 := ⟨max_retries - 1, by omega⟩
    have hdlen : (children.drop 90).length = 91 := by simp [hlen]
    rw [create_script_report_page, if_pos (by omega)]
    simp only [createFirstAttempts, henv]
    simp only [htruthy, Bool.not_true, hv]
    have hgroups : appendGroups envA (m + 1) (children.drop 90)
        = exhaustedEvents (.appendCall ((children.drop 90).take 90)) (m + 1)
          ++ [.appendCall (children.drop 180), .sleep (1 / 2 : ℚ)] := by
      rw [appendGroups, hdlen]
      show ((List.range 2).map _).flatten = _
      simp only [show List.range 2 = [0, 1] from rfl, List.map_cons, List.map_nil,
        List.flatten]
      rw [Nat.mul_zero, Nat.mul_one, List.drop_zero]
      rw [appendAttempts_fail_exhaust m (envA 0) ((children.drop 90).take 90)
        (m + 1) 0 henvA0 (by omega)]
      have hdd : (children.drop 90).drop 90 = children.drop 180 := by
        rw [List.drop_drop]
      have hlast : List.take 90 (children.drop 180) = children.drop 180 :=
        List.take_of_length_le (by simp [hlen])
      rw [hdd, hlast]
      simp [appendAttempts, henvA1, exhaustedEvents, List.range_eq_range']
    rw [hgroups]
    simp

/-- Claim C7, witness: the 181-block scenario with `max_retries = 3`,
first append group always timing out, second succeeding. -/
theorem C7_witness :
    (create_script_report_page "db" .vnone (List.replicate 181 .vnone)
      (fun _ => .timeout) (fun _ _ => .timeout) 3).2 = .ok none
    ∧ create_script_report_page "db" .vnone (List.replicate 181 .vnone)
      (fun _ => .success (.vdict [("id", .vstr "p")]))
      (fun g _ => if g = 0 then .timeout else .success .vnone) 3
      = ([.createCall "db" .vnone ((List.replicate 181 (PyVal.vnone)).take 90)]
          ++ exhaustedEvents
              (.appendCall (((List.replicate 181 (PyVal.vnone)).drop 90).take 90)) 3
          ++ [.appendCall ((List.replicate 181 (PyVal.vnone)).drop 180),
              .sleep (1 / 2 : ℚ)],
         .ok (some (.vdict [("id", .vstr "p")]))) :=
  ⟨(C7_claim "db" .vnone .vnone .vnone (List.replicate 181 .vnone)
      (fun _ => .timeout) (fun _ _ => .timeout) 3).1 (by simp) (fun _ => rfl),
   (C7_claim "db" .vnone (.vdict [("id", .vstr "p")]) .vnone
      (List.replicate 181 .vnone) _ _ 3).2 (by simp) (by omega) rfl rfl
      ⟨.vstr "p", rfl⟩ (fun _ => rfl) rfl⟩

lemma urlMatchStep_eq_spec (url : String) (r : PyVal)
    (hok : exceptOk (urlMatchStep url r) = true) :
    urlMatchStep url r = .ok (specMatchesURL url r) := by
  cases r with
  | vdict f =>
    cases hp : lookupField f "properties" with
    | none => simp [urlMatchStep, PyVal.getD, hp, pyContains, lookupField, specMatchesURL]
    | some properties =>
      cases properties with
      | vdict pf =>
        cases hu : lookupField pf "URL" with
        | none =>
          simp [urlMatchStep, PyVal.getD, hp, hu, pyContains, lookupField, specMatchesURL]
        | some url_property =>
          cases url_property with
          | vdict uf =>
            cases hv : lookupField uf "url" with
            | none =>
              simp [urlMatchStep, PyVal.getD, hp, hu, hv, pyContains, pyIndex,
                specMatchesURL]
            | some v =>
              simp [urlMatchStep, PyVal.getD, hp, hu, hv, pyContains, pyIndex,
                specMatchesURL]
          | vstr s =>
            cases hc : charsContain "url".data s.data with
            | false =>
              simp [urlMatchStep, PyVal.getD, hp, hu, pyContains, hc, specMatchesURL]
            | true =>
              simp [urlMatchStep, PyVal.getD, hp, hu, pyContains, hc, pyIndex,
                exceptOk] at hok
          | vlist l =>
            cases hc : l.any (fun v => pyEqStr v "url") with
            | false =>
              simp [urlMatchStep, PyVal.getD, hp, hu, pyContains, hc, specMatchesURL]
            | true =>
              simp [urlMatchStep, PyVal.getD, hp, hu, pyContains, hc, pyIndex,
                exceptOk] at hok
          | vnone => simp [urlMatchStep, PyVal.getD, hp, hu, pyContains, exceptOk] at hok
          | vbool b => simp [urlMatchStep, PyVal.getD, hp, hu, pyContains, exceptOk] at hok
          | vint n => simp [urlMatchStep, PyVal.getD, hp, hu, pyContains, exceptOk] at hok
      | vnone => simp [urlMatchStep, PyVal.getD, hp, exceptOk] at hok
      | vbool b => simp [urlMatchStep, PyVal.getD, hp, exceptOk] at hok
      | vint n => simp [urlMatchStep, PyVal.getD, hp, exceptOk] at hok
      | vstr s => simp [urlMatchStep, PyVal.getD, hp, exceptOk] at hok
      | vlist l => simp [urlMatchStep, PyVal.getD, hp, exceptOk] at hok
  | vnone => simp [urlMatchStep, PyVal.getD, exceptOk] at hok
  | vbool b => simp [urlMatchStep, PyVal.getD, exceptOk] at hok
  | vint n => simp [urlMatchStep, PyVal.getD, exceptOk] at hok
  | vstr s => simp [urlMatchStep, PyVal.getD, exceptOk] at hok
  | vlist l => simp [urlMatchStep, PyVal.getD, exceptOk] at hok

lemma checkScan_spec (url : String) (pages : List PyVal)
    (hok : pages.all (fun r => exceptOk (urlMatchStep url r)) = true) :
    checkScan url pages = .ok (pages.any (specMatchesURL url)) := by
  induction pages with
  | nil => rfl
  | cons r rest ih =>
    rw [List.all_cons, Bool.and_eq_true] at hok
    rw [checkScan, urlMatchStep_eq_spec url r hok.1]
    cases hs : specMatchesURL url r with
    | true => simp [hs]
    | false => simp [hs, ih hok.2]

/-- Environment of claim C8's counterexample: the query succeeds and
returns a single record whose `URL` property is the integer `5` — so no
record's `properties.URL.url` equals the probed URL. -/
def envC8x : Nat → HttpOutcome :=
  fun _ => .success (.vdict [("results",
    .vlist [.vdict [("properties", .vdict [("URL", .vint 5)])]])])

/-- Claim C8, counterexample. The claim says `check_script_exists`
returns false whenever no record matches; but on a query result whose
one record holds a non-mapping `URL` property, no record matches and the
function raises `TypeError` (from `"url" in url_property`) instead of
returning false. -/
theorem C8_counterexample :
    specMatchesURL "https://x/y" (.vdict [("properties", .vdict [("URL", .vint 5)])])
      = false
    ∧ (check_script_exists "https://x/y" envC8x).2 = .error .typeError :=
  ⟨rfl, rfl⟩

/-- Claim C8, amended: provided every returned record's per-record URL
test runs without raising (records may lack `properties`, `URL` or `url`
keys, but non-mapping values along the path can raise — see C10),
`check_script_exists sourceUrl` returns exactly the boolean "some
returned record's `properties.URL.url` equals `sourceUrl`" (exact,
case-sensitive string equality, no normalization); in particular false
when no record matches and when the query returned no records (a failed
query returns the empty list, so the scan finds nothing). -/
theorem C8_claim (url : String) (env : Nat → HttpOutcome) (rs : List PyVal)
    (hq : (query_notion_database SCRIPT_DB_ID env 3).2 = .ok (.vlist rs))
    (hok : rs.all (fun r => exceptOk (urlMatchStep url r)) = true) :
    (check_script_exists url env).2 = .ok (rs.any (specMatchesURL url))
    ∧ ((check_script_exists url env).2 = .ok true
        ↔ ∃ r ∈ rs, specMatchesURL url r = true) := by
  have hmain : (check_script_exists url env).2 = .ok (rs.any (specMatchesURL url)) := by
    rw [check_script_exists]
    simp only [hq, pyIter]
    exact checkScan_spec url rs hok
  refine ⟨hmain, ?_⟩
  rw [hmain]
  simp [List.any_eq_true]

/-- Claim C8, witness: a query returning one record whose
`properties.URL.url` is exactly the probed URL makes
`check_script_exists` return true. -/
theorem C8_witness :
    (check_script_exists "https://x/y" (fun _ => .success (.vdict [("results",
      .vlist [.vdict [("properties",
        .vdict [("URL", .vdict [("url", .vstr "https://x/y")])])]])]))).2
      = .ok true := by
  have h := C8_claim "https://x/y"
    (fun _ => .success (.vdict [("results",
      .vlist [.vdict [("properties",
        .vdict [("URL", .vdict [("url", .vstr "https://x/y")])])]])]))
    [.vdict [("properties", .vdict [("URL", .vdict [("url", .vstr "https://x/y")])])]]
    rfl rfl
  rw [h.1]
  rfl

/-- Records of claim C10's counterexample: the first record's
`properties` value is the string `"x"` (not a mapping), the second is a
well-formed record that matches the probed URL. -/
def rsC10x : List PyVal :=
  [.vdict [("properties", .vstr "x")],
   .vdict [("properties", .vdict [("URL", .vdict [("url", .vstr "https://x/y")])])]]

/-- Environment of claim C10's counterexample. -/
def envC10x : Nat → HttpOutcome :=
  fun _ => .success (.vdict [("results", .vlist rsC10x)])

/-- Claim C10, counterexample. The claim says a record holding a
non-mapping value at `properties` is skipped and the scan continues; but
with such a record first and a matching record second, the scan raises
`AttributeError` (from `properties.get("URL", {})` on a string) instead
of skipping to the match. -/
theorem C10_counterexample :
    specMatchesURL "https://x/y" (rsC10x.getD 1 .vnone) = true
    ∧ (check_script_exists "https://x/y" envC10x).2 = .error .attributeError :=
  ⟨rfl, rfl⟩

/-- Claim C10, amended: a returned record lacking a `"properties"` key,
lacking a `"URL"` key inside a mapping `properties`, or lacking a `"url"`
key inside a mapping `URL` value, is skipped via the defaulting lookups
(its test yields `False` without raising) and the scan continues with the
remaining records; but a record holding a *non-mapping* value at
`properties` (or at `URL`, when the `in` test succeeds on it) raises
instead of being skipped. -/
theorem C10_claim (url : String) (f pf uf : List (String × PyVal))
    (page : PyVal) (rest : List PyVal) :
    (lookupField f "properties" = none → urlMatchStep url (.vdict f) = .ok false)
    ∧ (lookupField f "properties" = some (.vdict pf) → lookupField pf "URL" = none →
        urlMatchStep url (.vdict f) = .ok false)
    ∧ (lookupField f "properties" = some (.vdict pf) →
        lookupField pf "URL" = some (.vdict uf) → lookupField uf "url" = none →
        urlMatchStep url (.vdict f) = .ok false)
    ∧ (urlMatchStep url page = .ok false →
        checkScan url (page :: rest) = checkScan url rest) := by
  refine ⟨fun hp => ?_, fun hp hu => ?_, fun hp hu hv => ?_, fun hstep => ?_⟩
  · simp [urlMatchStep, PyVal.getD, hp, pyContains, lookupField]
  · simp [urlMatchStep, PyVal.getD, hp, hu, pyContains, lookupField]
  · simp [urlMatchStep, PyVal.getD, hp, hu, hv, pyContains]
  · rw [checkScan, hstep]

/-- Claim C10, witness: a record whose `URL` mapping lacks the `"url"`
key is skipped and the scan continues to a later matching record. -/
theorem C10_witness :
    urlMatchStep "https://x/y"
      (.vdict [("properties", .vdict [("URL", .vdict [("k", .vnone)])])]) = .ok false
    ∧ checkScan "https://x/y"
        [.vdict [("properties", .vdict [("URL", .vdict [("k", .vnone)])])],
         .vdict [("properties", .vdict [("URL", .vdict [("url", .vstr "https://x/y")])])]]
      = .ok true := by
  have h := C10_claim "https://x/y"
    [("properties", PyVal.vdict [("URL", .vdict [("k", .vnone)])])]
    [("URL", PyVal.vdict [("k", .vnone)])] [("k", PyVal.vnone)]
    (.vdict [("properties", .vdict [("URL", .vdict [("k", .vnone)])])])
    [.vdict [("properties", .vdict [("URL", .vdict [("url", .vstr "https://x/y")])])]]
  have hstep := h.2.2.1 rfl rfl rfl
  exact ⟨hstep, by rw [h.2.2.2 hstep]; rfl⟩

lemma get1_id_of_dict (r : PyVal) (h : r.isDict = true) :
    r.get1 "id" = .ok (getIdD r) := by
  cases r <;> simp [PyVal.isDict] at h ⊢ <;> rfl

/-- Number of successful updates among the per-record updates of
`reset_all_channels`, starting from record index `k`. -/
def resetSuccessCount (updEnv : Nat → Nat → HttpOutcome) : List PyVal → Nat → Nat
  | [], _ => 0
  | r :: rest, k =>
    (if isOkTrue (updRunAt updEnv k r).2 then 1 else 0)
      + resetSuccessCount updEnv rest (k + 1)

lemma resetGo_spec (rs : List PyVal) : ∀ (updEnv : Nat → Nat → HttpOutcome)
    (k cnt : Nat), rs.all PyVal.isDict = true →
    (∀ j, j < rs.length → exceptOk (updRunAt updEnv (k + j) (rs.getD j .vnone)).2 = true) →
    resetGo updEnv rs k cnt
      = (resetExpectedEvents updEnv rs k,
         .ok (cnt + resetSuccessCount updEnv rs k)) := by
  induction rs with
  | nil =>
    intro updEnv k cnt _ _
    simp [resetGo, resetExpectedEvents, resetSuccessCount]
  | cons r rest ih =>
    intro updEnv k cnt hd hb
    rw [List.all_cons, Bool.and_eq_true] at hd
    have hb0 := hb 0 (by simp)
    simp only [List.getD_cons_zero, Nat.add_zero] at hb0
    have hb' : ∀ j, j < rest.length →
        exceptOk (updRunAt updEnv ((k + 1) + j) (rest.getD j .vnone)).2 = true := by
      intro j hj
      have := hb (j + 1) (by simpa using hj)
      simp only [List.getD_cons_succ] at this
      have harith : k + (j + 1) = (k + 1) + j := by omega
      rwa [harith] at this
    simp only [updRunAt, update_notion_page] at hb0
    rw [resetGo, get1_id_of_dict r hd.1]
    simp only [update_notion_page]
    split
    · next e heq => rw [heq] at hb0; simp [exceptOk] at hb0
    · next b heq =>
      rw [ih updEnv (k + 1) (if b then cnt + 1 else cnt) hd.2 hb']
      refine Prod.ext ?_ ?_
      · simp [resetExpectedEvents, updRunAt, update_notion_page]
      · simp only [resetSuccessCount, updRunAt, update_notion_page, heq]
        cases b <;> simp [isOkTrue] <;> omega

lemma resetSuccessCount_pos (updEnv : Nat → Nat → HttpOutcome) :
    ∀ (rs : List PyVal) (k : Nat),
    0 < resetSuccessCount updEnv rs k
      ↔ ∃ j, j < rs.length ∧ isOkTrue (updRunAt updEnv (k + j) (rs.getD j .vnone)).2 = true := by
  intro rs
  induction rs with
  | nil => intro k; simp [resetSuccessCount]
  | cons r rest ih =>
    intro k
    rw [resetSuccessCount]
    constructor
    · intro hpos
      by_cases h0 : isOkTrue (updRunAt updEnv k r).2 = true
      · exact ⟨0, by simp, by simpa using h0⟩
      · have : 0 < resetSuccessCount updEnv rest (k + 1) := by
          simp only [h0, if_false] at hpos
          simpa using hpos
        obtain ⟨j, hj, hq⟩ := (ih (k + 1)).mp this
        refine ⟨j + 1, by simpa using hj, ?_⟩
        rw [List.getD_cons_succ]
        have harith : k + (j + 1) = (k + 1) + j := by omega
        rwa [harith]
    · rintro ⟨j, hj, hq⟩
      cases j with
      | zero =>
        simp only [List.getD_cons_zero, Nat.add_zero] at hq
        rw [if_pos hq]
        omega
      | succ j =>
        have hq' : isOkTrue (updRunAt updEnv ((k + 1) + j) (rest.getD j .vnone)).2 = true := by
          simp only [List.getD_cons_succ] at hq
          have harith : k + (j + 1) = (k + 1) + j := by omega
          rwa [harith] at hq
        have := (ih (k + 1)).mpr ⟨j, by simpa using hj, hq'⟩
        omega

/-- Claim C9: when the reference-database query returns the records `rs`
(all dicts) and no per-record update raises, `reset_all_channels` issues
exactly one property update (of the `"활성화"` checkbox to true) per
returned record — every record is attempted, whatever the outcomes of
the earlier updates — and it returns `True` if and only if at least one
of those updates succeeded. -/
theorem C9_claim (env : Nat → HttpOutcome) (updEnv : Nat → Nat → HttpOutcome)
    (rs : List PyVal)
    (hq : (query_notion_database REFERENCE_DB_ID env 3).2 = .ok (.vlist rs))
    (hd : rs.all PyVal.isDict = true)
    (hb : ∀ j, j < rs.length → exceptOk (updRunAt updEnv j (rs.getD j .vnone)).2 = true) :
    (reset_all_channels env updEnv).1
        = (query_notion_database REFERENCE_DB_ID env 3).1
          ++ resetExpectedEvents updEnv rs 0
    ∧ (∃ b, (reset_all_channels env updEnv).2 = .ok b)
    ∧ ((reset_all_channels env updEnv).2 = .ok true
        ↔ ∃ j, j < rs.length ∧ isOkTrue (updRunAt updEnv j (rs.getD j .vnone)).2 = true) := by
  have hb' : ∀ j, j < rs.length →
      exceptOk (updRunAt updEnv (0 + j) (rs.getD j .vnone)).2 = true := by
    intro j hj; rw [Nat.zero_add]; exact hb j hj
  have hgo := resetGo_spec rs updEnv 0 0 hd hb'
  have hunfold : reset_all_channels env updEnv
      = ((query_notion_database REFERENCE_DB_ID env 3).1
          ++ resetExpectedEvents updEnv rs 0,
         .ok (decide (0 < resetSuccessCount updEnv rs 0))) := by
    rw [reset_all_channels]
    simp only [hq, pyLen, pyIter, hgo, Nat.zero_add]
  refine ⟨by rw [hunfold], ⟨_, by rw [hunfold]⟩, ?_⟩
  rw [hunfold]
  simp only [Except.ok.injEq, decide_eq_true_eq, resetSuccessCount_pos updEnv rs 0,
    Nat.zero_add]

/-- Records of claim C9's witness scenario: three channel records. -/
def rsC9w : List PyVal :=
  [.vdict [("id", .vstr "a")], .vdict [("id", .vstr "b")], .vdict [("id", .vstr "c")]]

/-- Query environment of claim C9's witness. -/
def envC9w : Nat → HttpOutcome :=
  fun _ => .success (.vdict [("results", .vlist rsC9w)])

/-- Update environments of claim C9's witness: the update for record 2
(index 1) times out on every attempt and so fails after exhausting its
retries, the updates for records 1 and 3 succeed. -/
def updEnvC9w : Nat → Nat → HttpOutcome :=
  fun k _ => if k = 1 then .timeout else .success .vnone

/-- Claim C9, witness: over three records where the update succeeds for
records 1 and 3 but exhausts its retries for record 2,
`reset_all_channels` still attempts every record and returns `True`. -/
theorem C9_witness :
    (reset_all_channels envC9w updEnvC9w).1
        = (query_notion_database REFERENCE_DB_ID envC9w 3).1
          ++ resetExpectedEvents updEnvC9w rsC9w 0
    ∧ (reset_all_channels envC9w updEnvC9w).2 = .ok true := by
  have h := C9_claim envC9w updEnvC9w rsC9w rfl rfl (by decide)
  exact ⟨h.1, h.2.2.mpr ⟨0, by simp [rsC9w], rfl⟩⟩
